import Mathlib

set_option maxHeartbeats 1000000

/-!
Verification development for the volume-measurement box controller.

The controller state and algorithms are shallowly embedded here.  The
sampler / measurement side (grid scan, empty-volume subtraction, measurement
snapshot) is modelled over the rationals; the vector-geometry side
(standardization, face resize, rotation, translation, box corners) is
modelled over the reals with an explicit 3-vector type mirroring the
Vector3 utilities consumed by the controller.
-/

namespace VolTool

/-- The creation states of the controller, mirroring the source enum
CreationState (IDLE, CORNER_DEFINED, WIDTH_DEFINED, PLANE_DEFINED,
VOLUME_DEFINED, FACE_RESIZING, RESIZE_ROTATE). -/
inductive CState where
  | IDLE
  | CORNER_DEFINED
  | WIDTH_DEFINED
  | PLANE_DEFINED
  | VOLUME_DEFINED
  | FACE_RESIZING
  | RESIZE_ROTATE
deriving DecidableEq, Repr

/-- The fixed grid resolution, source constant RefinedGridSize = 24. -/
def RefinedGridSize : Nat := 24

/-- Measurement-side controller state: the scalar box extents, the
empty-volume grid, the cached refined volume and the success flag of the
last refinement run.  Scalars are embedded as rationals.  The abort
instance flag is not a field here: it is set asynchronously by the UI
callback, so it is modelled as an explicit abort schedule passed to the
scanning functions. -/
structure MState where
  state : CState
  width : ℚ
  depth : ℚ
  height : ℚ
  emptyVolumes : List (List ℚ)
  refinedVolumeCalculation : ℚ
  success : Bool
deriving DecidableEq, Repr

/-- Embeds canRefine: true exactly in the VOLUME_DEFINED state. -/
def canRefine (s : MState) : Bool := s.state = CState.VOLUME_DEFINED

/-- The derived measurement snapshot returned by calculateVolume. -/
structure VolumeResult where
  width : ℚ
  depth : ℚ
  height : ℚ
  area : ℚ
  volume : ℚ
  refinedVolume : ℚ
deriving DecidableEq, Repr

/-- Embeds calculateVolume: absolute values of the stored extents, with
area = width × depth and volume = area × height, and the cached refined
volume. -/
def calculateVolume (s : MState) : VolumeResult :=
  let width := |s.width|
  let height := |s.height|
  let depth := |s.depth|
  let area := width * depth
  let volume := area * height
  { width := width, depth := depth, height := height, area := area,
    volume := volume, refinedVolume := s.refinedVolumeCalculation }

/-- Cell (i, j) of the empty-volume grid.  The source indexes
emptyVolumes[i][j]; the embedding totalizes out-of-range access to 0 (the
theorems about substractEmptyAreas assume a full 24 by 24 grid or an empty
one, on which the totalization is never exercised for the full case and
yields 0 exactly like the vacuous loop for the empty case). -/
def cellAt (s : MState) (i j : Nat) : ℚ :=
  (s.emptyVolumes.getD i []).getD j 0

/-- The gross volume |width| * |depth| * |height| as computed locally in
substractEmptyAreas. -/
def grossVolume (s : MState) : ℚ := (|s.width| * |s.depth|) * |s.height|

/-- The double loop of substractEmptyAreas: the accumulated empty volume
Σ smallBaseArea * emptyVolumes[i][j] over the 24 by 24 grid, with
smallBaseArea = (|width| / 24) * (|depth| / 24). -/
def emptyVolumeSum (s : MState) : ℚ :=
  ∑ i ∈ Finset.range RefinedGridSize, ∑ j ∈ Finset.range RefinedGridSize,
    ((|s.width| / (RefinedGridSize : ℚ)) * (|s.depth| / (RefinedGridSize : ℚ))) * cellAt s i j

/-- Embeds substractEmptyAreas: when refinement data is present, the gross
volume minus the accumulated empty volume, floored at 0; otherwise the
gross volume. -/
def substractEmptyAreas (s : MState) : ℚ :=
  let volume := grossVolume s
  if canRefine s ∧ 0 < s.emptyVolumes.length then
    let refined := volume - emptyVolumeSum s
    if 0 < refined then refined else 0
  else volume

/-- The value of the abort flag at a given time (number of samples taken so
far).  The flag starts false and is set once by the user abort callback;
abortT = some k means the flag reads true from time k on, none means the
user never aborts. -/
def flagAt (abortT : Option Nat) (t : Nat) : Bool :=
  match abortT with
  | none => false
  | some k => decide (k ≤ t)

/-- The left-to-right inner loop of processGridPoints for even rows: checks
the abort flag before each cell, samples, and pushes.  Returns the data
row, the time after the loop, and the points visited in order. -/
def scanRowLTR {α : Type} (sample : α → ℚ) (abortT : Option Nat) :
    List α → Nat → List ℚ × Nat × List α
  | [], t => ([], t, [])
  | p :: ps, t =>
    if flagAt abortT t then ([], t, [])
    else
      let d := sample p
      let rest := scanRowLTR sample abortT ps (t + 1)
      (d :: rest.1, rest.2.1, p :: rest.2.2)

/-- The right-to-left inner loop of processGridPoints for odd rows: iterates
the row from its last element down to its first, prepending each sample
(the unshift of the source) so that the produced data row is in
left-to-right order.  The source has no abort check inside this loop. -/
def scanRowRTL {α : Type} (sample : α → ℚ) (row : List α) : List ℚ :=
  row.reverse.foldl (fun acc p => sample p :: acc) []

/-- Result of a grid scan: the produced data, whether the success flag was
set, the points visited in sampling order, the progress values reported
after each completed row, and the final time. -/
structure ScanOut (α : Type) where
  data : List (List ℚ)
  success : Bool
  visited : List α
  progress : List ℚ
  time : Nat
deriving Repr

/-- Embeds processGridPoints.  Rows are scanned in order; the abort flag is
checked at the top of each row (an early return discards all data and
leaves the success flag false), even rows are scanned left to right with a
per-cell abort check, odd rows are scanned right to left after one extra
flag check; after each row the progress 100 * (i + 1) / RefinedGridSize is
reported.  Sampling a point is the external camera relocation plus surface
query, modelled by the pure function sample; time counts samples taken. -/
def processGridPoints {α : Type} (sample : α → ℚ) (abortT : Option Nat) :
    List (List α) → Nat → Nat → ScanOut α
  | [], _i, t => { data := [], success := true, visited := [], progress := [], time := t }
  | row :: rest, i, t =>
    if flagAt abortT t then
      { data := [], success := false, visited := [], progress := [], time := t }
    else if i % 2 = 0 then
      let scanned := scanRowLTR sample abortT row t
      let r := processGridPoints sample abortT rest (i + 1) scanned.2.1
      { data := if r.success then scanned.1 :: r.data else []
        success := r.success
        visited := scanned.2.2 ++ r.visited
        progress := (100 * ((i : ℚ) + 1) / (RefinedGridSize : ℚ)) :: r.progress
        time := r.time }
    else
      if flagAt abortT t then
        { data := [], success := false, visited := [], progress := [], time := t }
      else
        let dataRow := scanRowRTL sample row
        let r := processGridPoints sample abortT rest (i + 1) (t + row.length)
        { data := if r.success then dataRow :: r.data else []
          success := r.success
          visited := row.reverse ++ r.visited
          progress := (100 * ((i : ℚ) + 1) / (RefinedGridSize : ℚ)) :: r.progress
          time := r.time }

/-- The boustrophedon visiting order starting at row index i: even rows left
to right, odd rows right to left. -/
def serpentineFrom {α : Type} : Nat → List (List α) → List α
  | _, [] => []
  | i, row :: rest => (if i % 2 = 0 then row else row.reverse) ++ serpentineFrom (i + 1) rest

/-- The boustrophedon visiting order of a grid, starting at row 0. -/
def serpentineOrder {α : Type} (grid : List (List α)) : List α := serpentineFrom 0 grid

/-- The grid a plain left-to-right row-major scan would produce from the
same per-point samples (the reference order for the refinement-equivalence
claim about the serpentine scan). -/
def plainRowMajorScan {α : Type} (sample : α → ℚ) (grid : List (List α)) : List (List ℚ) :=
  grid.map (List.map sample)

/-- Embeds the grid construction of refineCalculation: a 24 by 24 grid of
cell-center points, row i interpolated at offset (i + 0.5) / 24 between the
two vertical top edges, then across each row at offsets (j + 0.5) / 24.
The geodesic interpolation service is external and passed as interp. -/
def buildGridPoints {α : Type} (interp : α → α → ℚ → α) (top0 top4 top2 top6 : α) :
    List (List α) :=
  let halfStep : ℚ := (1 / 2) / (RefinedGridSize : ℚ)
  let step : ℚ := 1 / (RefinedGridSize : ℚ)
  (List.range RefinedGridSize).map (fun i =>
    let t := step * (i : ℚ) + halfStep
    let leftPoint := interp top0 top4 t
    let rightPoint := interp top2 top6 t
    (List.range RefinedGridSize).map (fun j => interp leftPoint rightPoint (step * (j : ℚ) + halfStep)))

/-- Embeds refineCalculation (state effects).  If refinement is allowed, the
empty-volume grid is cleared, the refined volume reset to 0 and the success
flag to false, the grid of sample points is built, and the scan runs; on
success the scanned data becomes the new grid and the refined volume is
recomputed, otherwise the grid is left empty.  The banner, the saved and
restored map state, and the camera are external; sampling each grid point
is abstracted by sample (which stands for moveCameraToPointAndSample with
the fixed maxDistance), and the user abort callback by the schedule
abortT. -/
def refineCalculation {α : Type} (interp : α → α → ℚ → α) (top0 top4 top2 top6 : α)
    (sample : α → ℚ) (abortT : Option Nat) (s : MState) : MState :=
  if canRefine s then
    let gridPoints := buildGridPoints interp top0 top4 top2 top6
    let s1 : MState := { s with emptyVolumes := [], refinedVolumeCalculation := 0, success := false }
    let r := processGridPoints sample abortT gridPoints 0 0
    if r.success then
      let s2 := { s1 with emptyVolumes := r.data, success := true }
      { s2 with refinedVolumeCalculation := substractEmptyAreas s2 }
    else
      { s1 with emptyVolumes := [] }
  else s

/-- A 3-vector over the reals, modelling the Vector3 values consumed from
the external vector utilities. -/
@[ext]
structure V3 where
  x : ℝ
  y : ℝ
  z : ℝ

noncomputable instance : Add V3 :=
  ⟨fun a b => ⟨a.x + b.x, a.y + b.y, a.z + b.z⟩⟩

noncomputable instance : Sub V3 :=
  ⟨fun a b => ⟨a.x - b.x, a.y - b.y, a.z - b.z⟩⟩

noncomputable instance : SMul ℝ V3 :=
  ⟨fun r v => ⟨r * v.x, r * v.y, r * v.z⟩⟩

/-- Dot product, models the external vector utilities. -/
noncomputable def dot (a b : V3) : ℝ := a.x * b.x + a.y * b.y + a.z * b.z

/-- Cross product, models the external vector utilities. -/
noncomputable def cross (a b : V3) : V3 :=
  ⟨a.y * b.z - a.z * b.y, a.z * b.x - a.x * b.z, a.x * b.y - a.y * b.x⟩

/-- Euclidean length, models the external length utility. -/
noncomputable def vlen (v : V3) : ℝ := Real.sqrt (v.x ^ 2 + v.y ^ 2 + v.z ^ 2)

/-- Normalization to a unit vector, models the external normalize utility. -/
noncomputable def normalize (v : V3) : V3 := (1 / vlen v) • v

/-- Euclidean distance between two points, models the external distance
utility. -/
noncomputable def vdist (a b : V3) : ℝ := vlen (a - b)

/-- Clamp of a value to an interval, models the toolbox clamp. -/
noncomputable def clamp (v lo hi : ℝ) : ℝ := min (max v lo) hi

/-- Signed distance of p from q along a direction, models the external
distanceAlongDirection utility: the component of p minus q along the
normalized direction. -/
noncomputable def distanceAlongDirection (p q direction : V3) : ℝ :=
  dot (p - q) (normalize direction)

/-- Rotation of a vector around an axis by an angle (Rodrigues form),
models the external rotateAroundAxis utility. -/
noncomputable def rotateAroundAxis (v axis : V3) (theta : ℝ) : V3 :=
  (Real.cos theta) • v + (Real.sin theta) • cross axis v
    + ((1 - Real.cos theta) * dot axis v) • axis

/-- Rotation of a point around a line through a given point along an axis,
models the external rotatePointAroundLine utility. -/
noncomputable def rotatePointAroundLine (p linePoint axis : V3) (theta : ℝ) : V3 :=
  linePoint + rotateAroundAxis (p - linePoint) axis theta

/-- Source constant MAX_SIZE = 10000 (meters), the cap on box extents. -/
def MAX_SIZE : ℝ := 10000

/-- Geometry-side controller state: the box parameter model (anchor corner,
the two in-plane orientation vectors and the signed extents) together with
the rotation baseline, the rotating flag and the empty-volume grid. -/
structure GState where
  state : CState
  firstCorner : V3
  orientation : V3
  orientationComplement : V3
  width : ℝ
  depth : ℝ
  height : ℝ
  lastRotation : ℝ
  rotating : Bool
  emptyVolumes : List (List ℝ)

/-- The four corners of the box base plane, as produced by createPlane:
anchor, anchor + width * orientation, anchor + width * orientation +
depth * complement, anchor + depth * complement. -/
noncomputable def baseCorners (s : GState) : List V3 :=
  [s.firstCorner,
   s.firstCorner + s.width • s.orientation,
   s.firstCorner + (s.width • s.orientation + s.depth • s.orientationComplement),
   s.firstCorner + s.depth • s.orientationComplement]

/-- Embeds standardizePlane: when depth is negative, relocate the anchor to
the diagonally opposite corner along the depth axis, make depth positive,
and re-derive orientation from the original far corner and the complement
from the cross of the new orientation with the new anchor; otherwise leave
the state untouched. -/
noncomputable def standardizePlane (s : GState) : GState :=
  if s.depth < 0 then
    let fourthCorner := s.firstCorner + s.depth • s.orientationComplement
    let worldPoint :=
      s.firstCorner + (s.width • s.orientation + s.depth • s.orientationComplement)
    let newOrientation := normalize (worldPoint - fourthCorner)
    { s with
      firstCorner := fourthCorner
      depth := |s.depth|
      orientation := newOrientation
      orientationComplement := normalize (cross newOrientation fourthCorner) }
  else s

/-- The notification kinds emitted to listeners. -/
inductive Notif where
  | update
  | ready
  | ended
deriving DecidableEq, Repr

/-- A face-edit step result: the new controller state and the notifications
emitted during the step. -/
structure EditOut where
  st : GState
  emitted : List Notif

/-- Embeds dimensionsChanged: clears the empty-volume grid (the handle
update and the repaint are external effects). -/
def dimensionsChanged (s : GState) : GState := { s with emptyVolumes := [] }

/-- Embeds updateWidthFromFaceDragPrimary.  The ray-plane intersection with
the plane through the opposite face center is an external service; its
outcome is the worldPoint argument (none when the ray misses).  On success
the new width is clamped, the anchor is shifted along the orientation so
the opposite face stays fixed, dimensionsChanged runs and an Update
notification is emitted. -/
noncomputable def updateWidthFromFaceDragPrimary (s : GState) (worldPoint : Option V3)
    (oppositeFaceCenter : V3) : EditOut :=
  match worldPoint with
  | none => { st := s, emitted := [] }
  | some w =>
    let newWidth := clamp (distanceAlongDirection oppositeFaceCenter w s.orientation)
      (1 / 100) MAX_SIZE
    let delta := s.width - newWidth
    let s1 := { s with
      firstCorner := s.firstCorner + delta • s.orientation
      width := newWidth }
    { st := dimensionsChanged s1, emitted := [Notif.update] }

/-- Embeds updateWidthFromFaceDragSecondary: only the width changes (the
anchor stays), then dimensionsChanged and an Update notification. -/
noncomputable def updateWidthFromFaceDragSecondary (s : GState) (worldPoint : Option V3)
    (oppositeFaceCenter : V3) : EditOut :=
  match worldPoint with
  | none => { st := s, emitted := [] }
  | some w =>
    let s1 := { s with
      width := clamp (distanceAlongDirection w oppositeFaceCenter s.orientation)
        (1 / 100) MAX_SIZE }
    { st := dimensionsChanged s1, emitted := [Notif.update] }

/-- Embeds updateDepthFromFaceDragPrimary: the clamp range is sign-locked by
the direction argument, the anchor is shifted along the complement so the
opposite face stays fixed, then dimensionsChanged and an Update
notification. -/
noncomputable def updateDepthFromFaceDragPrimary (s : GState) (worldPoint : Option V3)
    (oppositeFaceCenter : V3) (direction : ℤ) : EditOut :=
  let lo := if direction = 1 then -MAX_SIZE else (1 / 100)
  let hi := if direction = 1 then -(1 / 100) else MAX_SIZE
  match worldPoint with
  | none => { st := s, emitted := [] }
  | some w =>
    let newDepth := clamp (distanceAlongDirection oppositeFaceCenter w s.orientationComplement) lo hi
    let delta := s.depth - newDepth
    let s1 := { s with
      firstCorner := s.firstCorner + delta • s.orientationComplement
      depth := newDepth }
    { st := dimensionsChanged s1, emitted := [Notif.update] }

/-- Embeds updateDepthFromFaceDragSecondary: only the depth changes, then
dimensionsChanged and an Update notification. -/
noncomputable def updateDepthFromFaceDragSecondary (s : GState) (worldPoint : Option V3)
    (oppositeFaceCenter : V3) (direction : ℤ) : EditOut :=
  let lo := if direction = 1 then -MAX_SIZE else (1 / 100)
  let hi := if direction = 1 then -(1 / 100) else MAX_SIZE
  match worldPoint with
  | none => { st := s, emitted := [] }
  | some w =>
    let s1 := { s with
      depth := clamp (distanceAlongDirection w oppositeFaceCenter s.orientationComplement) lo hi }
    { st := dimensionsChanged s1, emitted := [Notif.update] }

/-- Embeds updateHeightFromTopFaceDrag (the bottom-face height resize).  The
intersection with the camera-derived vertical plane through the fixed top
face center is external; its outcome is the worldPoint argument.  On
success the height is clamped to [0, MAX_SIZE] and an Update notification
is emitted; the source does not call dimensionsChanged here. -/
noncomputable def updateHeightFromTopFaceDrag (s : GState) (worldPoint : Option V3)
    (_thirdCorner : V3) : EditOut :=
  match worldPoint with
  | none => { st := s, emitted := [] }
  | some w =>
    { st := { s with
        height := clamp (distanceAlongDirection w s.firstCorner s.firstCorner) 0 MAX_SIZE }
      emitted := [Notif.update] }

/-- Embeds applyRotation: on the first delta after entering rotate mode the
baseline is zero; the incremental delta rotates both orientation vectors
around the base-plane normal and the anchor around the base-plane centroid
by the negated delta, and records the new baseline.  The extents are not
touched. -/
noncomputable def applyRotation (s : GState) (absoluteRotation : ℝ) : GState :=
  let lastRot := if s.rotating then s.lastRotation else 0
  let delta := lastRot - absoluteRotation
  let p0 := s.firstCorner
  let p1 := s.firstCorner + s.width • s.orientation
  let p2 := s.firstCorner + (s.width • s.orientation + s.depth • s.orientationComplement)
  let p3 := s.firstCorner + s.depth • s.orientationComplement
  let center := (1 / 4 : ℝ) • (p0 + p1 + p2 + p3)
  let planeNormal := cross s.orientation s.orientationComplement
  { s with
    orientation := rotateAroundAxis s.orientation planeNormal (-delta)
    orientationComplement := rotateAroundAxis s.orientationComplement planeNormal (-delta)
    firstCorner := rotatePointAroundLine s.firstCorner center planeNormal (-delta)
    lastRotation := absoluteRotation
    rotating := true }

/-- Embeds applyTranslation: adds the translation vector componentwise to
the anchor corner; the orientation vectors and extents are untouched (the
handle update is an external effect). -/
noncomputable def applyTranslation (s : GState) (translation : V3) : GState :=
  { s with firstCorner := ⟨s.firstCorner.x + translation.x,
      s.firstCorner.y + translation.y, s.firstCorner.z + translation.z⟩ }

/-- Corner k (0 to 7) of an oriented box with origin corner o and edge
vectors ax, ay (in-plane) and az (vertical).  Models the corner indexing of
the external getCornerPoints as used throughout the controller: corners
2k and 2k + 1 differ exactly by the vertical edge (heightVec = c6 - c7 is
vertical, the height label edge is c4 to c5, the top face is 0, 2, 4, 6 and
the bottom reference corner is c7). -/
noncomputable def boxCorner (o ax ay az : V3) : Nat → V3
  | 0 => o + az
  | 1 => o
  | 2 => o + ax + az
  | 3 => o + ax
  | 4 => o + ay + az
  | 5 => o + ay
  | 6 => o + ax + ay + az
  | 7 => o + ax + ay
  | _ => o

/-- Embeds moveCameraToPointAndSample.  The camera relocation and the
view-center surface query are external; the outcome of the query is the
queryResult argument (none when the transformation throws or nothing is
hit, which the source catches and turns into 0).  On success the distance
from the grid point to the hit is returned, capped at maxValue. -/
noncomputable def moveCameraToPointAndSample (queryResult : Option V3) (point : V3)
    (maxValue : ℝ) : ℝ :=
  match queryResult with
  | none => 0
  | some mapPoint =>
    let d := vdist point mapPoint
    if d > maxValue then maxValue else d

/-- The box parameters extracted from an externally supplied box. -/
structure BoxParams where
  firstCorner : V3
  width : ℝ
  depth : ℝ
  height : ℝ
  orientation : V3
  orientationComplement : V3

/-- Embeds extractBoxParameters: corner 7 is the reference corner; width,
depth and height are the lengths of the edge vectors to corners 5, 3 and 6,
the width taken as an absolute value; orientation is the normalized width
edge and the complement the normalized cross with the reference corner. -/
noncomputable def extractBoxParameters (c : Fin 8 → V3) : BoxParams :=
  let firstCorner := c 7
  let widthVec := c 5 - firstCorner
  let depthVec := c 3 - firstCorner
  let heightVec := c 6 - firstCorner
  let orientation := normalize (c 5 - firstCorner)
  let orientationComplement := normalize (cross orientation firstCorner)
  { firstCorner := firstCorner
    width := |vlen widthVec|
    depth := |vlen depthVec|
    height := vlen heightVec
    orientation := orientation
    orientationComplement := orientationComplement }

/-- Embeds the box seeding method of the controller (source name:
initializeBox): installs the extracted parameters and enters the
VOLUME_DEFINED state directly. -/
noncomputable def seedFromBox (s : GState) (c : Fin 8 → V3) : GState :=
  let inputs := extractBoxParameters c
  { s with
    firstCorner := inputs.firstCorner
    orientation := inputs.orientation
    orientationComplement := inputs.orientationComplement
    width := inputs.width
    depth := inputs.depth
    height := inputs.height
    state := CState.VOLUME_DEFINED }

/-- A finalized measurement state holding a previously computed refinement:
a full 24 by 24 empty-volume grid of ones and a nonzero refined volume. -/
def priorRefinedState : MState :=
  { state := CState.VOLUME_DEFINED
    width := 1
    depth := 1
    height := 1
    emptyVolumes := List.replicate 24 (List.replicate 24 1)
    refinedVolumeCalculation := 7
    success := true }

/-- A trivial interpolation service over natural-number points, used to
instantiate the abstract geodesic interpolation in concrete runs. -/
def natInterp : Nat → Nat → ℚ → Nat := fun a _ _ => a

/-- A trivial sampler over natural-number points. -/
def natSample : Nat → ℚ := fun _ => 0

/-- A finalized measurement state with no refinement data, used to
instantiate the empty-volume-grid theorems. -/
def plainVolumeState : MState :=
  { state := CState.VOLUME_DEFINED
    width := 3
    depth := 4
    height := 5
    emptyVolumes := []
    refinedVolumeCalculation := 0
    success := false }

/-- A concrete 24 by 24 grid of natural-number points. -/
def grid24 : List (List Nat) := List.replicate 24 (List.replicate 24 0)

/-- A finalized geometry state with a nonempty empty-volume grid, used to
exercise the bottom-face height resize. -/
noncomputable def heightResizeState : GState :=
  { state := CState.VOLUME_DEFINED
    firstCorner := ⟨0, 0, 1⟩
    orientation := ⟨1, 0, 0⟩
    orientationComplement := ⟨0, -1, 0⟩
    width := 1
    depth := 1
    height := 1
    lastRotation := 0
    rotating := false
    emptyVolumes := [[1]] }

/-- A finalized geometry state with negative depth, exactly as construction
produces it: anchor at distance 1 from the origin, orientation a unit
vector, and the complement equal to normalize (cross orientation anchor). -/
noncomputable def negDepthState : GState :=
  { state := CState.VOLUME_DEFINED
    firstCorner := ⟨0, 0, 1⟩
    orientation := ⟨1, 0, 0⟩
    orientationComplement := ⟨0, -1, 0⟩
    width := 1
    depth := -1
    height := 1
    lastRotation := 0
    rotating := false
    emptyVolumes := [] }

/-- A finalized geometry state whose depth is already non-negative. -/
noncomputable def posDepthState : GState :=
  { state := CState.VOLUME_DEFINED
    firstCorner := ⟨0, 0, 1⟩
    orientation := ⟨1, 0, 0⟩
    orientationComplement := ⟨0, -1, 0⟩
    width := 1
    depth := 2
    height := 1
    lastRotation := 0
    rotating := false
    emptyVolumes := [] }

/-- Origin of a concrete sampling box. -/
noncomputable def sampleBoxO : V3 := ⟨0, 0, 0⟩

/-- Width edge of a concrete sampling box. -/
noncomputable def sampleBoxAx : V3 := ⟨1, 0, 0⟩

/-- Depth edge of a concrete sampling box. -/
noncomputable def sampleBoxAy : V3 := ⟨0, 2, 0⟩

/-- Vertical edge of a concrete sampling box. -/
noncomputable def sampleBoxAz : V3 := ⟨0, 0, 10⟩

@[simp]
theorem add_x (a b : V3) : (a + b).x = a.x + b.x := rfl

@[simp]
theorem add_y (a b : V3) : (a + b).y = a.y + b.y := rfl

@[simp]
theorem add_z (a b : V3) : (a + b).z = a.z + b.z := rfl

@[simp]
theorem sub_x (a b : V3) : (a - b).x = a.x - b.x := rfl

@[simp]
theorem sub_y (a b : V3) : (a - b).y = a.y - b.y := rfl

@[simp]
theorem sub_z (a b : V3) : (a - b).z = a.z - b.z := rfl

@[simp]
theorem smul_x (r : ℝ) (v : V3) : (r • v).x = r * v.x := rfl

@[simp]
theorem smul_y (r : ℝ) (v : V3) : (r • v).y = r * v.y := rfl

@[simp]
theorem smul_z (r : ℝ) (v : V3) : (r • v).z = r * v.z := rfl

theorem scanRowLTR_none {α : Type} (sample : α → ℚ) (row : List α) :
    ∀ t : Nat, scanRowLTR sample none row t = (row.map sample, t + row.length, row) := by
  induction row with
  | nil => intro t; simp [scanRowLTR]
  | cons p ps ih =>
    intro t
    simp [scanRowLTR, flagAt, ih]
    omega

theorem foldl_sample_cons {α : Type} (sample : α → ℚ) (l : List α) :
    ∀ acc : List ℚ, l.foldl (fun a p => sample p :: a) acc = (l.map sample).reverse ++ acc := by
  induction l with
  | nil => intro acc; simp
  | cons p ps ih =>
    intro acc
    simp [ih]

theorem scanRowRTL_eq_map {α : Type} (sample : α → ℚ) (row : List α) :
    scanRowRTL sample row = row.map sample := by
  simp only [scanRowRTL, foldl_sample_cons sample row.reverse, List.map_reverse,
    List.reverse_reverse, List.append_nil]

theorem processGridPoints_none {α : Type} (sample : α → ℚ) (grid : List (List α)) :
    ∀ i t : Nat,
      (processGridPoints sample none grid i t).success = true ∧
      (processGridPoints sample none grid i t).data = grid.map (List.map sample) ∧
      (processGridPoints sample none grid i t).visited = serpentineFrom i grid ∧
      (processGridPoints sample none grid i t).progress =
        (List.range grid.length).map
          (fun k : Nat => 100 * ((i : ℚ) + (k : ℚ) + 1) / (RefinedGridSize : ℚ)) := by
  induction grid with
  | nil => intro i t; simp [processGridPoints, serpentineFrom]
  | cons row rest ih =>
    intro i t
    have hprog : ∀ j : Nat,
        (100 * ((j : ℚ) + 1) / (RefinedGridSize : ℚ)) ::
            (List.range rest.length).map
              (fun k : Nat => 100 * (((j + 1 : Nat) : ℚ) + (k : ℚ) + 1) / (RefinedGridSize : ℚ)) =
          (List.range (row :: rest).length).map
            (fun k : Nat => 100 * ((j : ℚ) + (k : ℚ) + 1) / (RefinedGridSize : ℚ)) := by
      intro j
      rw [List.length_cons, List.range_succ_eq_map, List.map_cons, List.map_map]
      congr 1
      · push_cast
        ring
      · congr 1
        funext k
        push_cast [Function.comp]
        ring
    by_cases hpar : i % 2 = 0
    · obtain ⟨hs, hd, hv, hp⟩ := ih (i + 1) (t + row.length)
      simp only [processGridPoints, flagAt, Bool.false_eq_true, if_false, hpar, if_true,
        scanRowLTR_none sample row t]
      refine ⟨hs, ?_, ?_, ?_⟩
      · simp [hs, hd]
      · simp [serpentineFrom, hpar, hv]
      · simpa [hp] using hprog i
    · obtain ⟨hs, hd, hv, hp⟩ := ih (i + 1) (t + row.length)
      simp only [processGridPoints, flagAt, Bool.false_eq_true, if_false, hpar]
      refine ⟨hs, ?_, ?_, ?_⟩
      · simp [hs, hd, scanRowRTL_eq_map]
      · simp [serpentineFrom, hpar, hv]
      · simpa [hp] using hprog i

theorem getD_elem_prop {β : Type} (P : β → Prop) (l : List β) (d : β)
    (h : ∀ b ∈ l, P b) (hd : P d) : ∀ i : Nat, P (l.getD i d) := by
  induction l with
  | nil => intro i; simpa [List.getD] using hd
  | cons a as ih =>
    intro i
    cases i with
    | zero => exact h a (by simp)
    | succ k =>
      simpa [List.getD] using ih (fun b hb => h b (by simp [hb])) k

theorem cellAt_nonneg (s : MState) (hnn : ∀ row ∈ s.emptyVolumes, ∀ q ∈ row, 0 ≤ q)
    (i j : Nat) : 0 ≤ cellAt s i j := by
  have hrow : ∀ q ∈ s.emptyVolumes.getD i [], 0 ≤ q :=
    getD_elem_prop (fun row => ∀ q ∈ row, 0 ≤ q) s.emptyVolumes [] hnn (by simp) i
  exact getD_elem_prop (fun q => 0 ≤ q) _ 0 hrow le_rfl j

theorem cellAt_zero (s : MState) (hz : ∀ row ∈ s.emptyVolumes, ∀ q ∈ row, q = 0)
    (i j : Nat) : cellAt s i j = 0 := by
  have hrow : ∀ q ∈ s.emptyVolumes.getD i [], q = 0 :=
    getD_elem_prop (fun row => ∀ q ∈ row, q = 0) s.emptyVolumes [] hz (by simp) i
  exact getD_elem_prop (fun q => q = 0) _ 0 hrow rfl j

/-- C8: for every model state, the derived measurement snapshot satisfies
area = width * depth and volume = area * height with width, depth and
height all non-negative (absolute values of the stored fields); in
particular for width 10, depth 10, height 5 the snapshot reports area 100
and volume 500. -/
theorem calculateVolume_spec (s : MState) :
    (calculateVolume s).area = (calculateVolume s).width * (calculateVolume s).depth ∧
    (calculateVolume s).volume = (calculateVolume s).area * (calculateVolume s).height ∧
    0 ≤ (calculateVolume s).width ∧ 0 ≤ (calculateVolume s).depth ∧
    0 ≤ (calculateVolume s).height ∧
    (calculateVolume { s with width := 10, depth := 10, height := 5 }).area = 100 ∧
    (calculateVolume { s with width := 10, depth := 10, height := 5 }).volume = 500 := by
  refine ⟨rfl, rfl, abs_nonneg _, abs_nonneg _, abs_nonneg _, ?_, ?_⟩ <;>
    norm_num [calculateVolume]

/-- C9: the serpentine scan stores its results in canonical row-major
orientation: a completed run of processGridPoints produces exactly the grid
a plain left-to-right row-major scan would produce from the same per-point
samples, so data i j is the sample at grid point (i, j) regardless of the
traversal direction of row i. -/
theorem processGridPoints_rowMajor {α : Type} (sample : α → ℚ) (grid : List (List α)) :
    (processGridPoints sample none grid 0 0).data = plainRowMajorScan sample grid := by
  simpa [plainRowMajorScan] using (processGridPoints_none sample grid 0 0).2.1

/-- C7: on a 24 by 24 grid an unaborted refinement scan visits the cells in
boustrophedon order (even rows left to right, odd rows right to left, each
cell strictly before the next in scan order), and the progress reported
after row i is 100 * (i + 1) / 24. -/
theorem processGridPoints_serpentine {α : Type} (sample : α → ℚ) (grid : List (List α))
    (hlen : grid.length = RefinedGridSize)
    (_hrows : ∀ row ∈ grid, row.length = RefinedGridSize) :
    (processGridPoints sample none grid 0 0).visited = serpentineOrder grid ∧
    (processGridPoints sample none grid 0 0).progress =
      (List.range RefinedGridSize).map
        (fun k : Nat => 100 * ((k : ℚ) + 1) / (RefinedGridSize : ℚ)) := by
  obtain ⟨-, -, hv, hp⟩ := processGridPoints_none sample grid 0 0
  refine ⟨hv, ?_⟩
  rw [hp, hlen]
  congr 1
  funext k
  push_cast
  ring

/-- Witness for C7: the serpentine-order and progress statement instantiated
on a concrete 24 by 24 grid. -/
theorem processGridPoints_serpentine_witness :
    grid24.length = RefinedGridSize ∧ (∀ row ∈ grid24, row.length = RefinedGridSize) ∧
    ((processGridPoints natSample none grid24 0 0).visited = serpentineOrder grid24 ∧
      (processGridPoints natSample none grid24 0 0).progress =
        (List.range RefinedGridSize).map
          (fun k : Nat => 100 * ((k : ℚ) + 1) / (RefinedGridSize : ℚ))) :=
  ⟨by decide, by decide,
    processGridPoints_serpentine natSample grid24 (by decide) (by decide)⟩

/-- C1 (amended): a refinement run that ends unsuccessfully (in particular
an aborted one) leaves the empty-volume grid empty and the refined volume
0 — both are cleared at the start of the run and an unsuccessful run does
not restore the previous values; only a successful run installs data. -/
theorem refineCalculation_unsuccessful_discards {α : Type} (interp : α → α → ℚ → α)
    (top0 top4 top2 top6 : α) (sample : α → ℚ) (abortT : Option Nat) (s : MState)
    (href : canRefine s = true)
    (hfail : (refineCalculation interp top0 top4 top2 top6 sample abortT s).success = false) :
    (refineCalculation interp top0 top4 top2 top6 sample abortT s).emptyVolumes = [] ∧
    (refineCalculation interp top0 top4 top2 top6 sample abortT s).refinedVolumeCalculation = 0 := by
  simp only [refineCalculation, href, if_true] at hfail ⊢
  cases hr : (processGridPoints sample abortT (buildGridPoints interp top0 top4 top2 top6) 0 0).success with
  | true => simp [hr] at hfail
  | false => simp [hr]

/-- Witness for C1 (amended): a run aborted before the first sample on a
state holding a previous refinement ends with an empty grid and refined
volume 0. -/
theorem refineCalculation_unsuccessful_discards_witness :
    canRefine priorRefinedState = true ∧
    ((refineCalculation natInterp 0 0 0 0 natSample (some 0) priorRefinedState).emptyVolumes = [] ∧
      (refineCalculation natInterp 0 0 0 0 natSample (some 0)
          priorRefinedState).refinedVolumeCalculation = 0) :=
  ⟨by decide,
    refineCalculation_unsuccessful_discards natInterp 0 0 0 0 natSample (some 0)
      priorRefinedState (by decide) (by decide)⟩

/-- C1 counterexample: a refinement run aborted mid-scan (the abort flag set
before any sample) does not preserve the previously stored empty-volume
grid nor the previously computed refined volume: starting from a state with
a full 24 by 24 grid and refined volume 7, the aborted run ends with an
empty grid and refined volume 0. -/
theorem refineCalculation_abort_not_preserving :
    (refineCalculation natInterp 0 0 0 0 natSample (some 0) priorRefinedState).success = false ∧
    (refineCalculation natInterp 0 0 0 0 natSample (some 0) priorRefinedState).emptyVolumes ≠
      priorRefinedState.emptyVolumes ∧
    (refineCalculation natInterp 0 0 0 0 natSample (some 0)
        priorRefinedState).refinedVolumeCalculation ≠
      priorRefinedState.refinedVolumeCalculation := by
  decide

/-- C2: for a finalized box whose empty-volume grid is a successful 24 by 24
refinement result of non-negative cell heights (or is empty), the refined
volume equals the gross volume minus the sum over all cells of
cellArea * emptyHeight i j, floored at 0; consequently it is at most the
gross volume, and equals the gross volume when every cell is zero (hence
also when the grid is empty). -/
theorem substractEmptyAreas_spec (s : MState)
    (hstate : s.state = CState.VOLUME_DEFINED)
    (_hshape : s.emptyVolumes = [] ∨
      (s.emptyVolumes.length = RefinedGridSize ∧
        ∀ row ∈ s.emptyVolumes, row.length = RefinedGridSize))
    (hnn : ∀ row ∈ s.emptyVolumes, ∀ q ∈ row, 0 ≤ q) :
    substractEmptyAreas s = max 0 (grossVolume s - emptyVolumeSum s) ∧
    substractEmptyAreas s ≤ grossVolume s ∧
    ((∀ row ∈ s.emptyVolumes, ∀ q ∈ row, q = 0) → substractEmptyAreas s = grossVolume s) := by
  have hg : 0 ≤ grossVolume s := by
    unfold grossVolume
    positivity
  have hsum : 0 ≤ emptyVolumeSum s := by
    unfold emptyVolumeSum
    refine Finset.sum_nonneg fun i _ => Finset.sum_nonneg fun j _ => ?_
    have hc := cellAt_nonneg s hnn i j
    positivity
  have h1 : substractEmptyAreas s = max 0 (grossVolume s - emptyVolumeSum s) := by
    simp only [substractEmptyAreas]
    by_cases hlenpos : 0 < s.emptyVolumes.length
    · have hcr : canRefine s = true := by simp [canRefine, hstate]
      rw [if_pos ⟨hcr, hlenpos⟩]
      rcases le_or_lt (grossVolume s - emptyVolumeSum s) 0 with hle | hlt
      · rw [if_neg (not_lt.2 hle), max_eq_left hle]
      · rw [if_pos hlt, max_eq_right hlt.le]
    · have hnil : s.emptyVolumes = [] := by
        cases h : s.emptyVolumes with
        | nil => rfl
        | cons a l => rw [h] at hlenpos; simp at hlenpos
      have hsum0 : emptyVolumeSum s = 0 := by
        unfold emptyVolumeSum
        refine Finset.sum_eq_zero fun i _ => Finset.sum_eq_zero fun j _ => ?_
        simp [cellAt, hnil]
      rw [if_neg (by rintro ⟨-, hpos⟩; exact hlenpos hpos), hsum0, sub_zero, max_eq_right hg]
  refine ⟨h1, ?_, ?_⟩
  · rw [h1]
    exact max_le hg (sub_le_self _ hsum)
  · intro hz
    have hsz : emptyVolumeSum s = 0 := by
      unfold emptyVolumeSum
      refine Finset.sum_eq_zero fun i _ => Finset.sum_eq_zero fun j _ => ?_
      rw [cellAt_zero s hz i j, mul_zero]
    rw [h1, hsz, sub_zero, max_eq_right hg]

/-- Witness for C2: the statement instantiated on a finalized state with an
empty grid, where the refined volume equals the gross volume. -/
theorem substractEmptyAreas_spec_witness :
    plainVolumeState.state = CState.VOLUME_DEFINED ∧
    (substractEmptyAreas plainVolumeState =
        max 0 (grossVolume plainVolumeState - emptyVolumeSum plainVolumeState) ∧
      substractEmptyAreas plainVolumeState ≤ grossVolume plainVolumeState ∧
      ((∀ row ∈ plainVolumeState.emptyVolumes, ∀ q ∈ row, q = 0) →
        substractEmptyAreas plainVolumeState = grossVolume plainVolumeState)) :=
  ⟨rfl, substractEmptyAreas_spec plainVolumeState rfl (Or.inl rfl) (by decide)⟩

theorem vlen_smul (r : ℝ) (v : V3) : vlen (r • v) = |r| * vlen v := by
  unfold vlen
  simp only [smul_x, smul_y, smul_z]
  rw [show (r * v.x) ^ 2 + (r * v.y) ^ 2 + (r * v.z) ^ 2
      = r ^ 2 * (v.x ^ 2 + v.y ^ 2 + v.z ^ 2) by ring,
    Real.sqrt_mul (sq_nonneg r), Real.sqrt_sq_eq_abs]

theorem normalize_smul_of_pos (r : ℝ) (v : V3) (hr : 0 < r) (hv : vlen v = 1) :
    normalize (r • v) = v := by
  unfold normalize
  rw [vlen_smul, hv, mul_one, abs_of_pos hr]
  ext <;> simp <;> field_simp

/-- C6: rotation and translation preserve the box extents exactly: both
applyRotation and applyTranslation leave width, depth and height unchanged,
and applyTranslation additionally leaves the orientation and
orientationComplement vectors unchanged. -/
theorem rotation_translation_preserve_extents (s : GState) (theta : ℝ) (translation : V3) :
    (applyRotation s theta).width = s.width ∧
    (applyRotation s theta).depth = s.depth ∧
    (applyRotation s theta).height = s.height ∧
    (applyTranslation s translation).width = s.width ∧
    (applyTranslation s translation).depth = s.depth ∧
    (applyTranslation s translation).height = s.height ∧
    (applyTranslation s translation).orientation = s.orientation ∧
    (applyTranslation s translation).orientationComplement = s.orientationComplement :=
  ⟨rfl, rfl, rfl, rfl, rfl, rfl, rfl, rfl⟩

/-- C4 (amended): every successful width or depth face resize (primary and
secondary, both directions) clears the empty-volume grid and emits an
Update notification; the bottom-face height resize emits an Update
notification but leaves the empty-volume grid unchanged. -/
theorem faceResize_clear_and_notify (s : GState) (w oc tc : V3) (direction : ℤ) :
    ((updateWidthFromFaceDragPrimary s (some w) oc).st.emptyVolumes = [] ∧
      (updateWidthFromFaceDragPrimary s (some w) oc).emitted = [Notif.update]) ∧
    ((updateWidthFromFaceDragSecondary s (some w) oc).st.emptyVolumes = [] ∧
      (updateWidthFromFaceDragSecondary s (some w) oc).emitted = [Notif.update]) ∧
    ((updateDepthFromFaceDragPrimary s (some w) oc direction).st.emptyVolumes = [] ∧
      (updateDepthFromFaceDragPrimary s (some w) oc direction).emitted = [Notif.update]) ∧
    ((updateDepthFromFaceDragSecondary s (some w) oc direction).st.emptyVolumes = [] ∧
      (updateDepthFromFaceDragSecondary s (some w) oc direction).emitted = [Notif.update]) ∧
    ((updateHeightFromTopFaceDrag s (some w) tc).st.emptyVolumes = s.emptyVolumes ∧
      (updateHeightFromTopFaceDrag s (some w) tc).emitted = [Notif.update]) :=
  ⟨⟨rfl, rfl⟩, ⟨rfl, rfl⟩, ⟨rfl, rfl⟩, ⟨rfl, rfl⟩, ⟨rfl, rfl⟩⟩

/-- C4 counterexample: a successful bottom-face height resize on a state
holding a nonempty empty-volume grid emits an Update notification but does
not clear the grid. -/
theorem heightResize_does_not_clear_grid :
    (updateHeightFromTopFaceDrag heightResizeState (some ⟨0, 0, 2⟩) ⟨0, 0, 2⟩).emitted =
      [Notif.update] ∧
    (updateHeightFromTopFaceDrag heightResizeState (some ⟨0, 0, 2⟩) ⟨0, 0, 2⟩).st.emptyVolumes ≠
      [] := by
  refine ⟨rfl, ?_⟩
  simp [updateHeightFromTopFaceDrag, heightResizeState]

/-- C10: a box seeded through the external seeding interface is already
standardized: extractBoxParameters always returns non-negative width, depth
and height, seeding enters the VOLUME_DEFINED state, and a subsequent
application of standardizePlane leaves the seeded model unchanged. -/
theorem seedFromBox_standardized (s : GState) (c : Fin 8 → V3) :
    0 ≤ (extractBoxParameters c).width ∧
    0 ≤ (extractBoxParameters c).depth ∧
    0 ≤ (extractBoxParameters c).height ∧
    (seedFromBox s c).state = CState.VOLUME_DEFINED ∧
    standardizePlane (seedFromBox s c) = seedFromBox s c := by
  refine ⟨abs_nonneg _, abs_nonneg _, Real.sqrt_nonneg _, rfl, ?_⟩
  unfold standardizePlane
  have hdep : (seedFromBox s c).depth = |vlen (c 3 - c 7)| := rfl
  rw [if_neg (by rw [hdep]; exact not_lt.2 (abs_nonneg _))]

/-- C5 (amended): a grid-point sample is clamped to [0, maxValue] whenever
maxValue is non-negative, a failed surface query yields 0 rather than
failing the run, and the maxValue used by refineCalculation — the distance
between box corner points 0 and 1 — is the length of the vertical edge of
the box (its height), not the top-face diagonal. -/
theorem moveCameraToPointAndSample_clamped (queryResult : Option V3) (point : V3)
    (maxValue : ℝ) (hmv : 0 ≤ maxValue) (o ax ay az : V3) :
    (0 ≤ moveCameraToPointAndSample queryResult point maxValue ∧
      moveCameraToPointAndSample queryResult point maxValue ≤ maxValue) ∧
    moveCameraToPointAndSample none point maxValue = 0 ∧
    vdist (boxCorner o ax ay az 0) (boxCorner o ax ay az 1) = vlen az := by
  refine ⟨?_, rfl, ?_⟩
  · cases queryResult with
    | none => exact ⟨le_rfl, hmv⟩
    | some mapPoint =>
      simp only [moveCameraToPointAndSample]
      by_cases hgt : vdist point mapPoint > maxValue
      · rw [if_pos hgt]
        exact ⟨hmv, le_rfl⟩
      · rw [if_neg hgt]
        exact ⟨Real.sqrt_nonneg _, not_lt.1 hgt⟩
  · show vlen ((o + az) - o) = vlen az
    congr 1
    ext <;> simp

/-- Witness for C5 (amended): the clamp statement instantiated at a failed
query with maxValue 1 and a concrete box. -/
theorem moveCameraToPointAndSample_clamped_witness :
    (0 : ℝ) ≤ 1 ∧
    ((0 ≤ moveCameraToPointAndSample none sampleBoxO 1 ∧
        moveCameraToPointAndSample none sampleBoxO 1 ≤ 1) ∧
      moveCameraToPointAndSample none sampleBoxO 1 = 0 ∧
      vdist (boxCorner sampleBoxO sampleBoxAx sampleBoxAy sampleBoxAz 0)
          (boxCorner sampleBoxO sampleBoxAx sampleBoxAy sampleBoxAz 1) = vlen sampleBoxAz) :=
  ⟨by norm_num,
    moveCameraToPointAndSample_clamped none sampleBoxO 1 (by norm_num)
      sampleBoxO sampleBoxAx sampleBoxAy sampleBoxAz⟩

/-- C5 counterexample: on a 1 by 2 by 10 box the maxValue computed by
refineCalculation (the distance between corners 0 and 1, which is 10) is
not the top-face diagonal (which is the square root of 5), and a successful
sample of 7 exceeds that diagonal — so samples are not clamped to the
top-face diagonal as claimed. -/
theorem sample_exceeds_topFaceDiagonal :
    ¬ (moveCameraToPointAndSample (some ⟨0, 0, 7⟩) sampleBoxO
        (vdist (boxCorner sampleBoxO sampleBoxAx sampleBoxAy sampleBoxAz 0)
          (boxCorner sampleBoxO sampleBoxAx sampleBoxAy sampleBoxAz 1)) ≤
      vdist (boxCorner sampleBoxO sampleBoxAx sampleBoxAy sampleBoxAz 0)
        (boxCorner sampleBoxO sampleBoxAx sampleBoxAy sampleBoxAz 6)) := by
  have hmax : vdist (boxCorner sampleBoxO sampleBoxAx sampleBoxAy sampleBoxAz 0)
      (boxCorner sampleBoxO sampleBoxAx sampleBoxAy sampleBoxAz 1) = 10 := by
    show vlen ((sampleBoxO + sampleBoxAz) - sampleBoxO) = 10
    unfold vlen sampleBoxO sampleBoxAz
    norm_num
    rw [show (100 : ℝ) = 10 ^ 2 by norm_num, Real.sqrt_sq (by norm_num : (0 : ℝ) ≤ 10)]
  have hd : vdist sampleBoxO ⟨0, 0, 7⟩ = 7 := by
    unfold vdist vlen sampleBoxO
    norm_num
    rw [show (49 : ℝ) = 7 ^ 2 by norm_num, Real.sqrt_sq (by norm_num : (0 : ℝ) ≤ 7)]
  have hdiag : vdist (boxCorner sampleBoxO sampleBoxAx sampleBoxAy sampleBoxAz 0)
      (boxCorner sampleBoxO sampleBoxAx sampleBoxAy sampleBoxAz 6) = Real.sqrt 5 := by
    show vlen ((sampleBoxO + sampleBoxAz) - (sampleBoxO + sampleBoxAx + sampleBoxAy + sampleBoxAz))
      = Real.sqrt 5
    unfold vlen sampleBoxO sampleBoxAx sampleBoxAy sampleBoxAz
    norm_num
  have hres : moveCameraToPointAndSample (some ⟨0, 0, 7⟩) sampleBoxO 10 = 7 := by
    simp only [moveCameraToPointAndSample]
    rw [hd, if_neg (by norm_num)]
  rw [hmax, hdiag, hres]
  exact not_le.2 ((Real.sqrt_lt' (by norm_num)).2 (by norm_num))

/-- C3 (amended): standardizePlane is exactly a no-op on a model whose depth
is already non-negative (no field changes), and on a model with negative
depth it yields depth equal to the absolute value of the old depth with the
anchor relocated to the diagonally opposite corner along the depth axis,
preserving the orientation vector whenever the width is positive and the
orientation is unit length; it does not in general reproduce the identical
solid, because the orientation complement is recomputed from the cross
product with the relocated anchor. -/
theorem standardizePlane_spec (s : GState) :
    (0 ≤ s.depth → standardizePlane s = s) ∧
    (s.depth < 0 →
      (standardizePlane s).depth = |s.depth| ∧
      (standardizePlane s).firstCorner = s.firstCorner + s.depth • s.orientationComplement ∧
      (0 < s.width → vlen s.orientation = 1 →
        (standardizePlane s).orientation = s.orientation)) := by
  constructor
  · intro h
    unfold standardizePlane
    rw [if_neg (not_lt.2 h)]
  · intro h
    unfold standardizePlane
    rw [if_pos h]
    refine ⟨rfl, rfl, ?_⟩
    intro hw hu
    show normalize
        ((s.firstCorner + (s.width • s.orientation + s.depth • s.orientationComplement))
          - (s.firstCorner + s.depth • s.orientationComplement)) = s.orientation
    have hveq : (s.firstCorner + (s.width • s.orientation + s.depth • s.orientationComplement))
        - (s.firstCorner + s.depth • s.orientationComplement) = s.width • s.orientation := by
      ext <;> simp
    rw [hveq]
    exact normalize_smul_of_pos s.width s.orientation hw hu

/-- Witness for C3 (amended): the no-op case at a state with depth 2 and
the negative-depth case at a state with depth -1, width 1 and a unit
orientation. -/
theorem standardizePlane_spec_witness :
    (0 ≤ posDepthState.depth ∧ standardizePlane posDepthState = posDepthState) ∧
    (negDepthState.depth < 0 ∧ 0 < negDepthState.width ∧ vlen negDepthState.orientation = 1 ∧
      ((standardizePlane negDepthState).depth = |negDepthState.depth| ∧
        (standardizePlane negDepthState).firstCorner =
          negDepthState.firstCorner + negDepthState.depth • negDepthState.orientationComplement ∧
        (standardizePlane negDepthState).orientation = negDepthState.orientation)) := by
  have hd : negDepthState.depth < 0 := by norm_num [negDepthState]
  have hw : (0 : ℝ) < negDepthState.width := by norm_num [negDepthState]
  have hu : vlen negDepthState.orientation = 1 := by
    show Real.sqrt ((1 : ℝ) ^ 2 + 0 ^ 2 + 0 ^ 2) = 1
    norm_num
  have hpos : (0 : ℝ) ≤ posDepthState.depth := by norm_num [posDepthState]
  obtain ⟨hdep, hfc, hor⟩ := (standardizePlane_spec negDepthState).2 hd
  exact ⟨⟨hpos, (standardizePlane_spec posDepthState).1 hpos⟩,
    hd, hw, hu, hdep, hfc, hor hw hu⟩

/-- C3 counterexample: standardizing a model with negative depth does not
describe the identical solid.  On a concrete construction-produced model
(anchor at distance 1 from the origin, unit orientation, complement equal
to normalize (cross orientation anchor), width 1, depth -1), a base corner
of the standardized box is not among the base corners of the original box:
the recomputed orientation complement is tilted out of the original base
plane. -/
theorem standardizePlane_changes_solid :
    (standardizePlane negDepthState).firstCorner +
        (standardizePlane negDepthState).depth •
          (standardizePlane negDepthState).orientationComplement ∈
      baseCorners (standardizePlane negDepthState) ∧
    (standardizePlane negDepthState).firstCorner +
        (standardizePlane negDepthState).depth •
          (standardizePlane negDepthState).orientationComplement ∉
      baseCorners negDepthState := by
  have hs2 : (0 : ℝ) < Real.sqrt 2 := Real.sqrt_pos.2 (by norm_num)
  have hz : ((standardizePlane negDepthState).firstCorner +
      (standardizePlane negDepthState).depth •
        (standardizePlane negDepthState).orientationComplement).z = 1 + 1 / Real.sqrt 2 := by
    norm_num [standardizePlane, negDepthState, normalize, vlen, cross]
  have hzne : ((standardizePlane negDepthState).firstCorner +
      (standardizePlane negDepthState).depth •
        (standardizePlane negDepthState).orientationComplement).z ≠ 1 := by
    rw [hz]
    have hinv : (0 : ℝ) < 1 / Real.sqrt 2 := by positivity
    intro hcontra
    linarith
  constructor
  · simp [baseCorners]
  · intro hmem
    simp only [baseCorners, List.mem_cons, List.not_mem_nil, or_false] at hmem
    rcases hmem with h | h | h | h <;>
      · have hzc := congrArg V3.z h
        rw [hz] at hzc
        norm_num [negDepthState] at hzc

end VolTool
